import Mathlib

/-!
Verification of the order-placement and cart workflow of the Retail backend.

The relational store is modelled as lists of rows; each Express handler is a
pure function from a store, a request body and a failure schedule (one flag
per external store call that can fail) to the resulting store and an HTTP
response. JavaScript truthiness of optional request fields is modelled
explicitly on `Option` values.
-/

/-- JS truthiness of an optional string field: `undefined`/`null` and the
empty string are falsy. -/
def truthyStr : Option String → Bool
  | none => false
  | some s => !(s == "")

/-- JS truthiness of an optional numeric field: `undefined`/`null` and `0`
are falsy. -/
def truthyInt : Option Int → Bool
  | none => false
  | some n => !(n == 0)

/-- JS comparison `q <= 0` where `q` may be `undefined`: a comparison with
`undefined` is false. -/
def jsLeZero : Option Int → Bool
  | none => false
  | some q => decide (q ≤ 0)

/-- JS `x || null` on an optional numeric field: falsy values become null. -/
def jsOrNull : Option Int → Option Int
  | none => none
  | some n => if n == 0 then none else some n

/-- JS `q || 1` on an optional numeric field: falsy values become 1. -/
def jsOrOne : Option Int → Int
  | none => 1
  | some q => if q == 0 then 1 else q

/-- JS `!item.quantity || item.quantity <= 0`: true when the quantity is
absent, zero or negative. -/
def jsQtyInvalid : Option Int → Bool
  | none => true
  | some q => q == 0 || decide (q ≤ 0)

/-- One row of the `cart` table. -/
structure CartLine where
  id : Nat
  user_id : String
  product_id : Int
  size_id : Option Int
  quantity : Int
deriving DecidableEq, Repr

/-- One row of the `orders` table. -/
structure Order where
  id : Nat
  user_id : String
  order_status : String
  created_at : String
deriving DecidableEq, Repr

/-- One row of the `orderitems` table. -/
structure OrderItem where
  order_id : Nat
  product_id : Int
  size_id : Option Int
  quantity : Int
deriving DecidableEq, Repr

/-- One row of the `products` table (the columns the order handlers read). -/
structure Product where
  id : Int
  title : String
deriving DecidableEq, Repr

/-- The relational store: the tables touched by the order and cart
handlers. `product_sizes` is the (product_id, size_id) bridge table and
`superusers` the privileged-account table. -/
structure Store where
  cart : List CartLine
  orders : List Order
  orderitems : List OrderItem
  superusers : List String
  products : List Product
  product_sizes : List (Int × Int)
deriving DecidableEq, Repr

/-- Failure schedule for the four store calls of `POST /api/cart/place-order`:
the cart read, the order insert, the orderitems insert, the cart clear. -/
structure PlaceFail where
  cartRead : Bool
  orderIns : Bool
  itemsIns : Bool
  cartClear : Bool
deriving DecidableEq, Repr

/-- The all-succeed schedule for place-order. -/
def placeOk : PlaceFail := ⟨false, false, false, false⟩

/-- Response of `POST /api/cart/place-order`: status plus the `order` and
`order_items` payload fields of the 201 body. -/
structure PlaceResp where
  status : Nat
  order : Option Order
  order_items : List OrderItem
deriving DecidableEq, Repr

/-- An error response of place-order: bare status, no payload. -/
def placeErr (s : Nat) : PlaceResp := ⟨s, none, []⟩

/-- The map from a cart line to the order item inserted for it: the new
order's id, with product_id/size_id/quantity carried over verbatim. -/
def cartToOrderItem (oid : Nat) (l : CartLine) : OrderItem :=
  ⟨oid, l.product_id, l.size_id, l.quantity⟩

/-- The (product_id, size_id, quantity) triple of a cart line. -/
def cartTriple (l : CartLine) : Int × Option Int × Int :=
  (l.product_id, l.size_id, l.quantity)

/-- The (product_id, size_id, quantity) triple of an order item. -/
def itemTriple (i : OrderItem) : Int × Option Int × Int :=
  (i.product_id, i.size_id, i.quantity)

/-- `POST /api/cart/place-order`. Validates `user_id`, reads the user's
cart (400 when the read fails or yields no lines), inserts one Pending
order, batch-inserts one order item per cart line, then deletes the user's
cart lines; each later store call that fails ends the request with 500,
leaving the writes already made in place. `oid` is the id the store assigns
to the inserted order and `now` the request timestamp. -/
def placeOrder (st : Store) (user_id : Option String) (f : PlaceFail)
    (oid : Nat) (now : String) : Store × PlaceResp :=
  if !truthyStr user_id then (st, placeErr 400)
  else
    let uid := user_id.getD ""
    let cartItems := st.cart.filter (fun l => l.user_id == uid)
    if f.cartRead || cartItems.length == 0 then (st, placeErr 400)
    else if f.orderIns then (st, placeErr 500)
    else
      let order : Order := ⟨oid, uid, "Pending", now⟩
      let st1 : Store := { st with orders := st.orders ++ [order] }
      let orderItems := cartItems.map (cartToOrderItem oid)
      if f.itemsIns then (st1, placeErr 500)
      else
        let st2 : Store := { st1 with orderitems := st1.orderitems ++ orderItems }
        if f.cartClear then (st2, placeErr 500)
        else
          let st3 : Store := { st2 with cart := st2.cart.filter (fun l => !(l.user_id == uid)) }
          (st3, ⟨201, some order, orderItems⟩)

/-- `POST /api/cart/add`. Rejects a falsy user or product id and a
submitted quantity `<= 0`; otherwise inserts one new cart line with the
store-assigned id `newId`, optional size collapsed by `|| null` and
quantity defaulted by `|| 1`. Returns the HTTP status. -/
def addToCart (st : Store) (user_id : Option String) (product_id : Option Int)
    (size_id : Option Int) (quantity : Option Int) (insFail : Bool)
    (newId : Nat) : Store × Nat :=
  if !truthyStr user_id || !truthyInt product_id || jsLeZero quantity then (st, 400)
  else if insFail then (st, 500)
  else
    let line : CartLine :=
      ⟨newId, user_id.getD "", product_id.getD 0, jsOrNull size_id, jsOrOne quantity⟩
    ({ st with cart := st.cart ++ [line] }, 201)

/-- The cart line `POST /api/cart/add` inserts for a given request. -/
def addedLine (newId : Nat) (user_id : Option String) (product_id : Option Int)
    (size_id : Option Int) (quantity : Option Int) : CartLine :=
  ⟨newId, user_id.getD "", product_id.getD 0, jsOrNull size_id, jsOrOne quantity⟩

/-- The superuser permission check: looks the id up in `superusers` with
`.single()` (which also errors when no row matches) and returns false on
any error, true otherwise. `lookupFails` injects a store failure. -/
def isSuperUser (st : Store) (lookupFails : Bool) (user_id : String) : Bool :=
  let row : Option String :=
    if lookupFails then none else st.superusers.find? (fun u => u == user_id)
  match row with
  | none => false
  | some _ => true

/-- One entry of the `items` array of `POST /api/orders`. -/
structure ReqItem where
  product_id : Option Int
  size_id : Option Int
  quantity : Option Int
deriving DecidableEq, Repr

/-- Failure schedule for the two store writes of `POST /api/orders`:
the order insert and the orderitems insert. -/
structure CreateFail where
  orderIns : Bool
  itemsIns : Bool
deriving DecidableEq, Repr

/-- Response of `POST /api/orders`: status plus the `order` and `items`
payload fields of the 201 body. -/
structure OrderResp where
  status : Nat
  order : Option Order
  items : List OrderItem
deriving DecidableEq, Repr

/-- An error response of `POST /api/orders`: bare status, no payload. -/
def orderErr (s : Nat) : OrderResp := ⟨s, none, []⟩

/-- Whether a product with this id exists in `products`. -/
def productExists (prods : List Product) (pid : Int) : Bool :=
  (prods.find? (fun p => p.id == pid)).isSome

/-- Whether the (product_id, size_id) pair exists in `product_sizes`. -/
def sizeOk (psizes : List (Int × Int)) (pid sid : Int) : Bool :=
  (psizes.find? (fun ps => ps.1 == pid && ps.2 == sid)).isSome

/-- The order item `POST /api/orders` builds from one request item. -/
def fmtItem (oid : Nat) (it : ReqItem) : OrderItem :=
  ⟨oid, it.product_id.getD 0, jsOrNull it.size_id, it.quantity.getD 0⟩

/-- The per-item loop of `POST /api/orders`: each item in order is field-
validated (400), its product looked up (404 when absent), and, when it
carries a truthy size_id, the (product, size) pair checked in
`product_sizes` (400 when absent); the first failure aborts the loop,
otherwise all formatted items are collected. -/
def processItems (prods : List Product) (psizes : List (Int × Int)) (oid : Nat) :
    List ReqItem → Except Nat (List OrderItem)
  | [] => .ok []
  | it :: rest =>
    if !truthyInt it.product_id || jsQtyInvalid it.quantity then .error 400
    else if !productExists prods (it.product_id.getD 0) then .error 404
    else if truthyInt it.size_id
        && !sizeOk psizes (it.product_id.getD 0) (it.size_id.getD 0) then .error 400
    else
      match processItems prods psizes oid rest with
      | .error s => .error s
      | .ok tl => .ok (fmtItem oid it :: tl)

/-- `POST /api/orders`. Validates `user_id` and the presence of a non-empty
`items` array, inserts one Pending order, then runs the per-item loop; a
loop failure or a failed orderitems insert ends the request with the loop's
status or 500, with the order row already inserted. -/
def createOrder (st : Store) (user_id : Option String)
    (items : Option (List ReqItem)) (f : CreateFail) (oid : Nat)
    (now : String) : Store × OrderResp :=
  if !truthyStr user_id || items.isNone || (items.getD []).length == 0 then
    (st, orderErr 400)
  else if f.orderIns then (st, orderErr 500)
  else
    let order : Order := ⟨oid, user_id.getD "", "Pending", now⟩
    let st1 : Store := { st with orders := st.orders ++ [order] }
    match processItems st.products st.product_sizes oid (items.getD []) with
    | .error s => (st1, orderErr s)
    | .ok fitems =>
      if f.itemsIns then (st1, orderErr 500)
      else ({ st1 with orderitems := st1.orderitems ++ fitems }, ⟨201, some order, fitems⟩)

/-- Whether one request item fails any of the per-item checks of
`POST /api/orders`: invalid fields, missing product, or an invalid
(product, size) pair when a truthy size_id is carried. -/
def itemBad (prods : List Product) (psizes : List (Int × Int)) (it : ReqItem) : Bool :=
  if !truthyInt it.product_id || jsQtyInvalid it.quantity then true
  else if !productExists prods (it.product_id.getD 0) then true
  else if truthyInt it.size_id
      && !sizeOk psizes (it.product_id.getD 0) (it.size_id.getD 0) then true
  else false

/-- The status the per-item loop reports for a failing item: 400 for an
invalid field, 404 for a missing product, 400 for an invalid size pair. -/
def itemErr (prods : List Product) (it : ReqItem) : Nat :=
  if !truthyInt it.product_id || jsQtyInvalid it.quantity then 400
  else if !productExists prods (it.product_id.getD 0) then 404
  else 400

example :
    placeOrder ⟨[⟨1, "u1", 5, none, 2⟩, ⟨2, "u1", 7, some 3, 1⟩], [], [], [], [], []⟩
      (some "u1") placeOk 10 "t"
    = (⟨[], [⟨10, "u1", "Pending", "t"⟩],
        [⟨10, 5, none, 2⟩, ⟨10, 7, some 3, 1⟩], [], [], []⟩,
       ⟨201, some ⟨10, "u1", "Pending", "t"⟩, [⟨10, 5, none, 2⟩, ⟨10, 7, some 3, 1⟩]⟩) := by
  decide

example :
    (placeOrder ⟨[⟨1, "u1", 5, none, 2⟩], [], [], [], [], []⟩
      (some "u1") ⟨true, false, false, false⟩ 10 "t").2.status = 400 := by
  decide

/-! ## Helper lemmas -/

theorem filter_orderitems_append (old new : List OrderItem) (oid : Nat)
    (hfresh : ∀ i ∈ old, i.order_id ≠ oid) (hnew : ∀ i ∈ new, i.order_id = oid) :
    (old ++ new).filter (fun i => i.order_id == oid) = new := by
  rw [List.filter_append]
  have h1 : old.filter (fun i => i.order_id == oid) = [] := by
    rw [List.filter_eq_nil_iff]
    intro a ha
    simp [hfresh a ha]
  have h2 : new.filter (fun i => i.order_id == oid) = new := by
    rw [List.filter_eq_self]
    intro a ha
    simp [hnew a ha]
  rw [h1, h2, List.nil_append]

theorem mapped_items_order_id (cartItems : List CartLine) (oid : Nat) :
    ∀ i ∈ cartItems.map (cartToOrderItem oid), i.order_id = oid := by
  intro i hi
  rcases List.mem_map.mp hi with ⟨l, _, rfl⟩
  rfl

theorem isSuperUser_false_iff_mem (st : Store) (u : String) :
    isSuperUser st false u = true ↔ u ∈ st.superusers := by
  unfold isSuperUser
  cases hfind : st.superusers.find? (fun x => x == u) with
  | none =>
    simp only [if_neg Bool.false_ne_true, hfind]
    constructor
    · intro h; exact absurd h (by simp)
    · intro hmem
      have := List.find?_eq_none.mp hfind u hmem
      simp at this
  | some x =>
    have hx : x = u := by simpa using List.find?_some hfind
    subst hx
    simp only [if_neg Bool.false_ne_true, hfind]
    exact iff_of_true trivial (List.mem_of_find?_eq_some hfind)

/-! ## Claim theorems -/

/-- C3: a place-order request whose cart read succeeds but yields no cart
lines for the user returns 400 and performs no store writes: the store is
returned unchanged, so no Order, OrderItems or cart deletion happens. -/
theorem place_order_empty_cart_no_writes (st : Store) (u : Option String)
    (f : PlaceFail) (oid : Nat) (now : String) (hu : truthyStr u = true)
    (hread : f.cartRead = false)
    (hempty : st.cart.filter (fun l => l.user_id == u.getD "") = []) :
    placeOrder st u f oid now = (st, placeErr 400) := by
  simp [placeOrder, hu, hread, hempty]

/-- C3 witness: a concrete user with an empty cart (another user's line
present) gets 400 and an unchanged store. -/
theorem place_order_empty_cart_no_writes_witness :
    placeOrder ⟨[⟨1, "u2", 5, none, 2⟩], [], [], [], [], []⟩ (some "u1")
        placeOk 10 "t"
      = (⟨[⟨1, "u2", 5, none, 2⟩], [], [], [], [], []⟩, placeErr 400) :=
  place_order_empty_cart_no_writes ⟨[⟨1, "u2", 5, none, 2⟩], [], [], [], [], []⟩
    (some "u1") placeOk 10 "t" (by decide) rfl (by decide)

/-- C10: an add-to-cart request with truthy user_id and product_id but an
absent quantity passes the `quantity <= 0` validation (false for an absent
value) and inserts one cart line whose quantity defaults to 1. -/
theorem add_to_cart_missing_quantity_defaults_one (st : Store)
    (u : Option String) (p : Option Int) (s : Option Int) (newId : Nat)
    (hu : truthyStr u = true) (hp : truthyInt p = true) :
    addToCart st u p s none false newId
      = ({ st with cart := st.cart ++ [addedLine newId u p s none] }, 201)
    ∧ (addedLine newId u p s none).quantity = 1 := by
  constructor
  · simp [addToCart, addedLine, hu, hp, jsLeZero]
  · rfl

/-- C10 witness: adding product 5 for user "u1" with no quantity yields 201
and a single cart line with quantity 1. -/
theorem add_to_cart_missing_quantity_defaults_one_witness :
    addToCart ⟨[], [], [], [], [], []⟩ (some "u1") (some 5) none none false 1
      = (⟨[addedLine 1 (some "u1") (some 5) none none], [], [], [], [], []⟩, 201)
    ∧ (addedLine 1 (some "u1") (some 5) none none).quantity = 1 :=
  add_to_cart_missing_quantity_defaults_one ⟨[], [], [], [], [], []⟩
    (some "u1") (some 5) none 1 (by decide) (by decide)

/-- C9: two successive successful add-to-cart calls with the same
(user_id, product_id, size_id) append two distinct cart lines, each
carrying its own submitted quantity — no upsert, not idempotent. -/
theorem add_to_cart_appends_duplicate_lines (st : Store) (u : Option String)
    (p : Option Int) (s : Option Int) (q1 q2 : Option Int) (id1 id2 : Nat)
    (hu : truthyStr u = true) (hp : truthyInt p = true)
    (hq1 : jsLeZero q1 = false) (hq2 : jsLeZero q2 = false)
    (hid : id1 ≠ id2) :
    (addToCart st u p s q1 false id1).2 = 201
    ∧ (addToCart (addToCart st u p s q1 false id1).1 u p s q2 false id2).2 = 201
    ∧ (addToCart (addToCart st u p s q1 false id1).1 u p s q2 false id2).1.cart
        = st.cart ++ [addedLine id1 u p s q1, addedLine id2 u p s q2]
    ∧ addedLine id1 u p s q1 ≠ addedLine id2 u p s q2
    ∧ (addedLine id1 u p s q1).quantity = jsOrOne q1
    ∧ (addedLine id2 u p s q2).quantity = jsOrOne q2 := by
  refine ⟨?_, ?_, ?_, ?_, rfl, rfl⟩
  · simp [addToCart, hu, hp, hq1]
  · simp [addToCart, hu, hp, hq1, hq2]
  · simp [addToCart, addedLine, hu, hp, hq1, hq2]
  · intro h
    exact hid (congrArg CartLine.id h)

/-- C9 witness: adding product 5, size 3, quantity 2 twice for user "u1"
gives two 201 responses and two distinct duplicate cart lines. -/
theorem add_to_cart_appends_duplicate_lines_witness :
    (addToCart ⟨[], [], [], [], [], []⟩ (some "u1") (some 5) (some 3) (some 2)
        false 1).2 = 201
    ∧ (addToCart (addToCart ⟨[], [], [], [], [], []⟩ (some "u1") (some 5)
        (some 3) (some 2) false 1).1 (some "u1") (some 5) (some 3) (some 2)
        false 2).2 = 201
    ∧ (addToCart (addToCart ⟨[], [], [], [], [], []⟩ (some "u1") (some 5)
        (some 3) (some 2) false 1).1 (some "u1") (some 5) (some 3) (some 2)
        false 2).1.cart
      = [] ++ [addedLine 1 (some "u1") (some 5) (some 3) (some 2),
               addedLine 2 (some "u1") (some 5) (some 3) (some 2)]
    ∧ addedLine 1 (some "u1") (some 5) (some 3) (some 2)
        ≠ addedLine 2 (some "u1") (some 5) (some 3) (some 2)
    ∧ (addedLine 1 (some "u1") (some 5) (some 3) (some 2)).quantity
        = jsOrOne (some 2)
    ∧ (addedLine 2 (some "u1") (some 5) (some 3) (some 2)).quantity
        = jsOrOne (some 2) :=
  add_to_cart_appends_duplicate_lines ⟨[], [], [], [], [], []⟩ (some "u1")
    (some 5) (some 3) (some 2) (some 2) 1 2 (by decide) (by decide)
    (by decide) (by decide) (by decide)

/-- C8: the superuser check is a total boolean function that returns true
exactly when the lookup succeeds and the row exists; a failed lookup and an
absent row both yield false, indistinguishably. -/
theorem is_super_user_collapses_errors (st : Store) (f : Bool) (u : String) :
    isSuperUser st true u = false
    ∧ (u ∉ st.superusers → isSuperUser st f u = false)
    ∧ (isSuperUser st f u = true ↔ f = false ∧ u ∈ st.superusers) := by
  refine ⟨rfl, ?_, ?_⟩
  · intro hmem
    cases f with
    | true => rfl
    | false =>
      cases hsu : isSuperUser st false u with
      | false => rfl
      | true => exact absurd ((isSuperUser_false_iff_mem st u).mp hsu) hmem
  · cases f with
    | true => simp [isSuperUser]
    | false => simp [isSuperUser_false_iff_mem st u]

/-- C8 witness: with superusers = ["admin"], a failed lookup on "admin",
a successful lookup on the absent "bob", and a successful lookup on
"admin" behave as the theorem states. -/
theorem is_super_user_collapses_errors_witness :
    isSuperUser ⟨[], [], [], ["admin"], [], []⟩ true "admin" = false
    ∧ isSuperUser ⟨[], [], [], ["admin"], [], []⟩ false "bob" = false
    ∧ isSuperUser ⟨[], [], [], ["admin"], [], []⟩ false "admin" = true :=
  ⟨(is_super_user_collapses_errors ⟨[], [], [], ["admin"], [], []⟩ true "admin").1,
   (is_super_user_collapses_errors ⟨[], [], [], ["admin"], [], []⟩ false "bob").2.1
     (by decide),
   ((is_super_user_collapses_errors ⟨[], [], [], ["admin"], [], []⟩ false "admin").2.2).mpr
     ⟨rfl, by decide⟩⟩

/-- C2: when the orderitems insert fails during place-order, the handler
returns 500, but the Order row just created remains (with zero order items
referencing it, given a fresh order id) and the user's cart is unchanged:
no rollback or compensation happens. -/
theorem place_order_orphan_on_items_failure (st : Store) (u : Option String)
    (oid : Nat) (now : String) (hu : truthyStr u = true)
    (hcart : st.cart.filter (fun l => l.user_id == u.getD "") ≠ [])
    (hfresh : ∀ i ∈ st.orderitems, i.order_id ≠ oid) :
    (placeOrder st u ⟨false, false, true, false⟩ oid now).2 = placeErr 500
    ∧ (placeOrder st u ⟨false, false, true, false⟩ oid now).1.orders
        = st.orders ++ [⟨oid, u.getD "", "Pending", now⟩]
    ∧ (placeOrder st u ⟨false, false, true, false⟩ oid now).1.orderitems
        = st.orderitems
    ∧ (placeOrder st u ⟨false, false, true, false⟩ oid now).1.orderitems.filter
        (fun i => i.order_id == oid) = []
    ∧ (placeOrder st u ⟨false, false, true, false⟩ oid now).1.cart = st.cart := by
  have hres : placeOrder st u ⟨false, false, true, false⟩ oid now
      = ({ st with orders := st.orders ++ [⟨oid, u.getD "", "Pending", now⟩] },
         placeErr 500) := by
    simp [placeOrder, hu, hcart]
  rw [hres]
  refine ⟨rfl, rfl, rfl, ?_, rfl⟩
  rw [List.filter_eq_nil_iff]
  intro a ha
  simp [hfresh a ha]

/-- C2 witness: with one cart line for "u1" and a failing orderitems
insert, the order row exists orphaned, no items were written, and the cart
survives. -/
theorem place_order_orphan_on_items_failure_witness :
    (placeOrder ⟨[⟨1, "u1", 5, none, 2⟩], [], [], [], [], []⟩ (some "u1")
        ⟨false, false, true, false⟩ 10 "t").2 = placeErr 500
    ∧ (placeOrder ⟨[⟨1, "u1", 5, none, 2⟩], [], [], [], [], []⟩ (some "u1")
        ⟨false, false, true, false⟩ 10 "t").1.orders
        = [] ++ [⟨10, "u1", "Pending", "t"⟩]
    ∧ (placeOrder ⟨[⟨1, "u1", 5, none, 2⟩], [], [], [], [], []⟩ (some "u1")
        ⟨false, false, true, false⟩ 10 "t").1.orderitems = []
    ∧ (placeOrder ⟨[⟨1, "u1", 5, none, 2⟩], [], [], [], [], []⟩ (some "u1")
        ⟨false, false, true, false⟩ 10 "t").1.orderitems.filter
        (fun i => i.order_id == 10) = []
    ∧ (placeOrder ⟨[⟨1, "u1", 5, none, 2⟩], [], [], [], [], []⟩ (some "u1")
        ⟨false, false, true, false⟩ 10 "t").1.cart
        = [⟨1, "u1", 5, none, 2⟩] :=
  place_order_orphan_on_items_failure ⟨[⟨1, "u1", 5, none, 2⟩], [], [], [], [], []⟩
    (some "u1") 10 "t" (by decide) (by decide) (by decide)

/-- Shape of any 201 place-order run: the user is truthy, no store call
failed, the cart read was non-empty, and the result is exactly one new
Pending order, the mapped order items appended, and the user's cart lines
deleted. -/
theorem place_order_201_shape (st : Store) (u : Option String) (f : PlaceFail)
    (oid : Nat) (now : String)
    (h201 : (placeOrder st u f oid now).2.status = 201) :
    truthyStr u = true ∧ f.cartRead = false
    ∧ st.cart.filter (fun l => l.user_id == u.getD "") ≠ []
    ∧ f.orderIns = false ∧ f.itemsIns = false ∧ f.cartClear = false
    ∧ placeOrder st u f oid now
      = ({ st with
            orders := st.orders ++ [⟨oid, u.getD "", "Pending", now⟩],
            orderitems := st.orderitems
              ++ (st.cart.filter (fun l => l.user_id == u.getD "")).map
                  (cartToOrderItem oid),
            cart := st.cart.filter (fun l => !(l.user_id == u.getD "")) },
         ⟨201, some ⟨oid, u.getD "", "Pending", now⟩,
          (st.cart.filter (fun l => l.user_id == u.getD "")).map
            (cartToOrderItem oid)⟩) := by
  cases hu : truthyStr u with
  | false => simp [placeOrder, hu, placeErr] at h201
  | true =>
    cases hcr : f.cartRead with
    | true => simp [placeOrder, hu, hcr, placeErr] at h201
    | false =>
      by_cases hemp : st.cart.filter (fun l => l.user_id == u.getD "") = []
      · simp [placeOrder, hu, hcr, hemp, placeErr] at h201
      · cases hoi : f.orderIns with
        | true => simp [placeOrder, hu, hcr, hemp, hoi, placeErr] at h201
        | false =>
          cases hii : f.itemsIns with
          | true => simp [placeOrder, hu, hcr, hemp, hoi, hii, placeErr] at h201
          | false =>
            cases hcc : f.cartClear with
            | true =>
              simp [placeOrder, hu, hcr, hemp, hoi, hii, hcc, placeErr] at h201
            | false =>
              refine ⟨rfl, rfl, hemp, rfl, rfl, rfl, ?_⟩
              simp [placeOrder, hu, hcr, hemp, hoi, hii, hcc]

/-- C1: every successful place-order run creates exactly one new Order row
for the user and, for a fresh order id, exactly one OrderItem per cart
line read, the list (hence the multiset) of whose (product_id, size_id,
quantity) triples equals that of the user's cart lines at the read. -/
theorem place_order_success_one_order_n_items (st : Store) (u : Option String)
    (f : PlaceFail) (oid : Nat) (now : String)
    (h201 : (placeOrder st u f oid now).2.status = 201)
    (hfresh : ∀ i ∈ st.orderitems, i.order_id ≠ oid) :
    st.cart.filter (fun l => l.user_id == u.getD "") ≠ []
    ∧ (placeOrder st u f oid now).1.orders
        = st.orders ++ [⟨oid, u.getD "", "Pending", now⟩]
    ∧ (placeOrder st u f oid now).1.orderitems.filter (fun i => i.order_id == oid)
        = (st.cart.filter (fun l => l.user_id == u.getD "")).map (cartToOrderItem oid)
    ∧ ((placeOrder st u f oid now).1.orderitems.filter
        (fun i => i.order_id == oid)).length
        = (st.cart.filter (fun l => l.user_id == u.getD "")).length
    ∧ (↑(((placeOrder st u f oid now).1.orderitems.filter
          (fun i => i.order_id == oid)).map itemTriple)
          : Multiset (Int × Option Int × Int))
        = ↑((st.cart.filter (fun l => l.user_id == u.getD "")).map cartTriple) := by
  obtain ⟨hu, hcr, hemp, hoi, hii, hcc, hres⟩ :=
    place_order_201_shape st u f oid now h201
  have hO : (placeOrder st u f oid now).1.orderitems
      = st.orderitems
        ++ (st.cart.filter (fun l => l.user_id == u.getD "")).map
            (cartToOrderItem oid) := by
    rw [hres]
  have hOrd : (placeOrder st u f oid now).1.orders
      = st.orders ++ [⟨oid, u.getD "", "Pending", now⟩] := by
    rw [hres]
  have hfil := filter_orderitems_append st.orderitems
    ((st.cart.filter (fun l => l.user_id == u.getD "")).map (cartToOrderItem oid))
    oid hfresh (mapped_items_order_id _ oid)
  refine ⟨hemp, hOrd, ?_, ?_, ?_⟩
  · rw [hO, hfil]
  · rw [hO, hfil, List.length_map]
  · rw [hO, hfil, List.map_map]
    rfl

/-- C1 witness: the spec's concrete scenario — cart lines (5, null, 2) and
(7, 3, 1) for "u1" — placed with fresh order id 10. -/
theorem place_order_success_one_order_n_items_witness :
    (⟨[⟨1, "u1", 5, none, 2⟩, ⟨2, "u1", 7, some 3, 1⟩], [], [], [], [], []⟩
        : Store).cart.filter (fun l => l.user_id == (some "u1").getD "") ≠ []
    ∧ (placeOrder ⟨[⟨1, "u1", 5, none, 2⟩, ⟨2, "u1", 7, some 3, 1⟩],
        [], [], [], [], []⟩ (some "u1") placeOk 10 "t").1.orders
        = [] ++ [⟨10, (some "u1").getD "", "Pending", "t"⟩]
    ∧ (placeOrder ⟨[⟨1, "u1", 5, none, 2⟩, ⟨2, "u1", 7, some 3, 1⟩],
        [], [], [], [], []⟩ (some "u1") placeOk 10 "t").1.orderitems.filter
        (fun i => i.order_id == 10)
        = ((⟨[⟨1, "u1", 5, none, 2⟩, ⟨2, "u1", 7, some 3, 1⟩], [], [], [], [], []⟩
            : Store).cart.filter (fun l => l.user_id == (some "u1").getD "")).map
            (cartToOrderItem 10)
    ∧ ((placeOrder ⟨[⟨1, "u1", 5, none, 2⟩, ⟨2, "u1", 7, some 3, 1⟩],
        [], [], [], [], []⟩ (some "u1") placeOk 10 "t").1.orderitems.filter
        (fun i => i.order_id == 10)).length
        = ((⟨[⟨1, "u1", 5, none, 2⟩, ⟨2, "u1", 7, some 3, 1⟩], [], [], [], [], []⟩
            : Store).cart.filter (fun l => l.user_id == (some "u1").getD "")).length
    ∧ (↑(((placeOrder ⟨[⟨1, "u1", 5, none, 2⟩, ⟨2, "u1", 7, some 3, 1⟩],
          [], [], [], [], []⟩ (some "u1") placeOk 10 "t").1.orderitems.filter
          (fun i => i.order_id == 10)).map itemTriple)
          : Multiset (Int × Option Int × Int))
        = ↑(((⟨[⟨1, "u1", 5, none, 2⟩, ⟨2, "u1", 7, some 3, 1⟩], [], [], [], [], []⟩
            : Store).cart.filter (fun l => l.user_id == (some "u1").getD "")).map
            cartTriple) :=
  place_order_success_one_order_n_items
    ⟨[⟨1, "u1", 5, none, 2⟩, ⟨2, "u1", 7, some 3, 1⟩], [], [], [], [], []⟩
    (some "u1") placeOk 10 "t" (by decide) (by decide)

/-- C4: after every successful (201) place-order run, the user's cart
contains zero lines: every cart line of that user was deleted. -/
theorem place_order_success_clears_cart (st : Store) (u : Option String)
    (f : PlaceFail) (oid : Nat) (now : String)
    (h201 : (placeOrder st u f oid now).2.status = 201) :
    (placeOrder st u f oid now).1.cart.filter
      (fun l => l.user_id == u.getD "") = [] := by
  obtain ⟨hu, hcr, hemp, hoi, hii, hcc, hres⟩ :=
    place_order_201_shape st u f oid now h201
  have hC : (placeOrder st u f oid now).1.cart
      = st.cart.filter (fun l => !(l.user_id == u.getD "")) := by rw [hres]
  rw [hC, List.filter_filter]
  simp

/-- C4 witness: after placing the order for "u1", a cart fetch for "u1"
returns the empty list. -/
theorem place_order_success_clears_cart_witness :
    (placeOrder ⟨[⟨1, "u1", 5, none, 2⟩, ⟨2, "u1", 7, some 3, 1⟩],
        [], [], [], [], []⟩ (some "u1") placeOk 10 "t").1.cart.filter
      (fun l => l.user_id == (some "u1").getD "") = [] :=
  place_order_success_clears_cart
    ⟨[⟨1, "u1", 5, none, 2⟩, ⟨2, "u1", 7, some 3, 1⟩], [], [], [], [], []⟩
    (some "u1") placeOk 10 "t" (by decide)

/-- C5 counterexample: with a non-empty cart for "u1" and the initial cart
read failing (a store failure), place-order answers 400, not the 500 the
claim requires for a store failure at any step. -/
theorem place_order_cart_read_failure_is_400 :
    (placeOrder ⟨[⟨1, "u1", 5, none, 2⟩], [], [], [], [], []⟩ (some "u1")
        ⟨true, false, false, false⟩ 10 "t").2.status = 400
    ∧ (placeOrder ⟨[⟨1, "u1", 5, none, 2⟩], [], [], [], [], []⟩ (some "u1")
        ⟨true, false, false, false⟩ 10 "t").2.status ≠ 500 := by
  decide

/-- C5 amended: place-order answers 201 with the created order and its
order items on success; 400 for a missing user, a failed cart read, or an
empty cart (the cart-read failure is conflated with the empty cart); and
500 when the order insert, the orderitems insert, or the cart clear
fails. -/
theorem place_order_status_codes (st : Store) (u : Option String)
    (f : PlaceFail) (oid : Nat) (now : String) :
    (truthyStr u = false → placeOrder st u f oid now = (st, placeErr 400))
    ∧ (truthyStr u = true → f.cartRead = true →
        placeOrder st u f oid now = (st, placeErr 400))
    ∧ (truthyStr u = true → f.cartRead = false →
        st.cart.filter (fun l => l.user_id == u.getD "") = [] →
        placeOrder st u f oid now = (st, placeErr 400))
    ∧ (truthyStr u = true → f.cartRead = false →
        st.cart.filter (fun l => l.user_id == u.getD "") ≠ [] →
        f.orderIns = true → placeOrder st u f oid now = (st, placeErr 500))
    ∧ (truthyStr u = true → f.cartRead = false →
        st.cart.filter (fun l => l.user_id == u.getD "") ≠ [] →
        f.orderIns = false → f.itemsIns = true →
        (placeOrder st u f oid now).2 = placeErr 500)
    ∧ (truthyStr u = true → f.cartRead = false →
        st.cart.filter (fun l => l.user_id == u.getD "") ≠ [] →
        f.orderIns = false → f.itemsIns = false → f.cartClear = true →
        (placeOrder st u f oid now).2 = placeErr 500)
    ∧ (truthyStr u = true → f.cartRead = false →
        st.cart.filter (fun l => l.user_id == u.getD "") ≠ [] →
        f.orderIns = false → f.itemsIns = false → f.cartClear = false →
        (placeOrder st u f oid now).2
          = ⟨201, some ⟨oid, u.getD "", "Pending", now⟩,
             (st.cart.filter (fun l => l.user_id == u.getD "")).map
               (cartToOrderItem oid)⟩) := by
  refine ⟨?_, ?_, ?_, ?_, ?_, ?_, ?_⟩
  · intro hu; simp [placeOrder, hu]
  · intro hu hcr; simp [placeOrder, hu, hcr]
  · intro hu hcr hemp; simp [placeOrder, hu, hcr, hemp]
  · intro hu hcr hemp hoi; simp [placeOrder, hu, hcr, hemp, hoi]
  · intro hu hcr hemp hoi hii; simp [placeOrder, hu, hcr, hemp, hoi, hii]
  · intro hu hcr hemp hoi hii hcc
    simp [placeOrder, hu, hcr, hemp, hoi, hii, hcc]
  · intro hu hcr hemp hoi hii hcc
    simp [placeOrder, hu, hcr, hemp, hoi, hii, hcc]

/-- C5 amended witness: with one cart line for "u1", a failing order
insert yields 500 and an all-ok run yields the 201 payload. -/
theorem place_order_status_codes_witness :
    placeOrder ⟨[⟨1, "u1", 5, none, 2⟩], [], [], [], [], []⟩ (some "u1")
        ⟨false, true, false, false⟩ 10 "t"
      = (⟨[⟨1, "u1", 5, none, 2⟩], [], [], [], [], []⟩, placeErr 500)
    ∧ (placeOrder ⟨[⟨1, "u1", 5, none, 2⟩], [], [], [], [], []⟩ (some "u1")
        placeOk 10 "t").2
      = ⟨201, some ⟨10, (some "u1").getD "", "Pending", "t"⟩,
         ((⟨[⟨1, "u1", 5, none, 2⟩], [], [], [], [], []⟩ : Store).cart.filter
           (fun l => l.user_id == (some "u1").getD "")).map (cartToOrderItem 10)⟩ :=
  ⟨(place_order_status_codes ⟨[⟨1, "u1", 5, none, 2⟩], [], [], [], [], []⟩
      (some "u1") ⟨false, true, false, false⟩ 10 "t").2.2.2.1
      (by decide) rfl (by decide) rfl,
   (place_order_status_codes ⟨[⟨1, "u1", 5, none, 2⟩], [], [], [], [], []⟩
      (some "u1") placeOk 10 "t").2.2.2.2.2.2
      (by decide) rfl (by decide) rfl rfl rfl⟩

/-- Characterization of the per-item loop: it succeeds with the formatted
items exactly when no item fails a check, and otherwise reports the first
failing item's status. -/
theorem processItems_spec (prods : List Product) (psizes : List (Int × Int))
    (oid : Nat) (l : List ReqItem) :
    (l.find? (itemBad prods psizes) = none →
      processItems prods psizes oid l = .ok (l.map (fmtItem oid)))
    ∧ (∀ it, l.find? (itemBad prods psizes) = some it →
      processItems prods psizes oid l = .error (itemErr prods it)) := by
  induction l with
  | nil =>
    refine ⟨fun _ => rfl, fun it h => ?_⟩
    simp at h
  | cons hd rest ih =>
    by_cases h1 : (!truthyInt hd.product_id || jsQtyInvalid hd.quantity) = true
    · have hbad : itemBad prods psizes hd = true := by simp [itemBad, h1]
      refine ⟨fun hnone => ?_, fun it hsome => ?_⟩
      · rw [List.find?_cons_of_pos _ hbad] at hnone
        exact absurd hnone (by simp)
      · rw [List.find?_cons_of_pos _ hbad] at hsome
        obtain rfl : hd = it := by simpa using hsome
        simp [processItems, h1, itemErr]
    · by_cases h2 : productExists prods (hd.product_id.getD 0) = true
      · by_cases h3 : (truthyInt hd.size_id
            && !sizeOk psizes (hd.product_id.getD 0) (hd.size_id.getD 0)) = true
        · have hbad : itemBad prods psizes hd = true := by
            simp [itemBad, h1, h2, h3]
          refine ⟨fun hnone => ?_, fun it hsome => ?_⟩
          · rw [List.find?_cons_of_pos _ hbad] at hnone
            exact absurd hnone (by simp)
          · rw [List.find?_cons_of_pos _ hbad] at hsome
            obtain rfl : hd = it := by simpa using hsome
            simp [processItems, h1, h2, h3, itemErr]
        · have hgood : itemBad prods psizes hd = false := by
            simp [itemBad, h1, h2, h3]
          refine ⟨fun hnone => ?_, fun it hsome => ?_⟩
          · rw [List.find?_cons_of_neg _ (by simp [hgood])] at hnone
            have hok := ih.1 hnone
            simp [processItems, h1, h2, h3, hok]
          · rw [List.find?_cons_of_neg _ (by simp [hgood])] at hsome
            have herr := ih.2 it hsome
            simp [processItems, h1, h2, h3, herr]
      · have hbad : itemBad prods psizes hd = true := by
          simp [itemBad, h1, h2]
        refine ⟨fun hnone => ?_, fun it hsome => ?_⟩
        · rw [List.find?_cons_of_pos _ hbad] at hnone
          exact absurd hnone (by simp)
        · rw [List.find?_cons_of_pos _ hbad] at hsome
          obtain rfl : hd = it := by simpa using hsome
          simp [processItems, h1, h2, itemErr]

/-- C7: `POST /api/orders` re-validates every item before the orderitems
insert: when no item fails a check the batch insert appends exactly the
formatted items (201); when some item fails, no OrderItems are inserted and
the status is the first failing item's — 404 exactly when its fields are
valid but its product does not exist, 400 otherwise (invalid fields or an
invalid (product, size) pair). -/
theorem orders_post_revalidates_before_items (st : Store) (u : Option String)
    (l : List ReqItem) (g : CreateFail) (oid : Nat) (now : String)
    (hu : truthyStr u = true) (hl : l ≠ []) (hg : g.orderIns = false) :
    (l.find? (itemBad st.products st.product_sizes) = none →
      g.itemsIns = false →
      (createOrder st u (some l) g oid now).1.orderitems
          = st.orderitems ++ l.map (fmtItem oid)
      ∧ (createOrder st u (some l) g oid now).2.status = 201)
    ∧ (∀ it, l.find? (itemBad st.products st.product_sizes) = some it →
      (createOrder st u (some l) g oid now).1.orderitems = st.orderitems
      ∧ (createOrder st u (some l) g oid now).2.status = itemErr st.products it
      ∧ (itemErr st.products it = 404
          ↔ ((!truthyInt it.product_id || jsQtyInvalid it.quantity) = false
             ∧ productExists st.products (it.product_id.getD 0) = false))) := by
  constructor
  · intro hnone hitems
    have hok := (processItems_spec st.products st.product_sizes oid l).1 hnone
    constructor
    · simp [createOrder, hu, hl, hg, hitems, hok]
    · simp [createOrder, hu, hl, hg, hitems, hok]
  · intro it hsome
    have herr := (processItems_spec st.products st.product_sizes oid l).2 it hsome
    refine ⟨?_, ?_, ?_⟩
    · simp [createOrder, hu, hl, hg, herr]
    · simp [createOrder, hu, hl, hg, herr, orderErr]
    · by_cases hA : (!truthyInt it.product_id || jsQtyInvalid it.quantity) = true
      · simp [itemErr, hA]
      · by_cases hP : productExists st.products (it.product_id.getD 0) = true
        · simp [itemErr, hA, hP]
        · simp [itemErr, hA, hP]

/-- C7 witness: a single valid item (product 5, size 3, quantity 2) against
a store holding that product and size pair is inserted with 201. -/
theorem orders_post_revalidates_before_items_witness :
    (createOrder ⟨[], [], [], [], [⟨5, "p"⟩], [(5, 3)]⟩ (some "u1")
        (some [⟨some 5, some 3, some 2⟩]) ⟨false, false⟩ 1 "t").1.orderitems
      = [] ++ [(⟨some 5, some 3, some 2⟩ : ReqItem)].map (fmtItem 1)
    ∧ (createOrder ⟨[], [], [], [], [⟨5, "p"⟩], [(5, 3)]⟩ (some "u1")
        (some [⟨some 5, some 3, some 2⟩]) ⟨false, false⟩ 1 "t").2.status = 201 :=
  (orders_post_revalidates_before_items ⟨[], [], [], [], [⟨5, "p"⟩], [(5, 3)]⟩
    (some "u1") [⟨some 5, some 3, some 2⟩] ⟨false, false⟩ 1 "t"
    (by decide) (by decide) rfl).1 (by decide) rfl

/-- C6 counterexample: `POST /api/orders` with a truthy user and one item
whose quantity is 0 answers a validation 400, yet the order insert has
already happened — a store write precedes a validation-error response. -/
theorem orders_post_write_precedes_validation_error :
    (createOrder ⟨[], [], [], [], [⟨5, "p"⟩], []⟩ (some "u1")
        (some [⟨some 5, none, some 0⟩]) ⟨false, false⟩ 1 "t").2.status = 400
    ∧ (createOrder ⟨[], [], [], [], [⟨5, "p"⟩], []⟩ (some "u1")
        (some [⟨some 5, none, some 0⟩]) ⟨false, false⟩ 1 "t").1.orders
      = [⟨1, "u1", "Pending", "t"⟩] := by
  decide

/-- C6 amended: top-level validation failures (missing user at either
endpoint; missing or empty items at `POST /api/orders`) are reported as
400 with no store access; but a per-item validation failure in
`POST /api/orders` is detected only after the order insert, so its 400/404
response leaves a newly inserted Order row behind. -/
theorem validation_errors_vs_store_writes (st : Store) (u : Option String)
    (f : PlaceFail) (g : CreateFail) (items : Option (List ReqItem))
    (l : List ReqItem) (oid : Nat) (now : String) :
    (truthyStr u = false → placeOrder st u f oid now = (st, placeErr 400))
    ∧ (truthyStr u = false ∨ items = none ∨ items = some [] →
        createOrder st u items g oid now = (st, orderErr 400))
    ∧ (truthyStr u = true → l ≠ [] → g.orderIns = false →
        ∀ it, l.find? (itemBad st.products st.product_sizes) = some it →
          (createOrder st u (some l) g oid now).1.orders
              = st.orders ++ [⟨oid, u.getD "", "Pending", now⟩]
          ∧ (createOrder st u (some l) g oid now).2
              = orderErr (itemErr st.products it)) := by
  refine ⟨?_, ?_, ?_⟩
  · intro hu; simp [placeOrder, hu]
  · rintro (hu | rfl | rfl)
    · simp [createOrder, hu]
    · simp [createOrder]
    · simp [createOrder]
  · intro hu hl hg it hsome
    have herr := (processItems_spec st.products st.product_sizes oid l).2 it hsome
    constructor
    · simp [createOrder, hu, hl, hg, herr]
    · simp [createOrder, hu, hl, hg, herr]

/-- C6 amended witness: a missing user gets 400 with an untouched store,
while the quantity-0 item gets its 400 only with the order row already
inserted. -/
theorem validation_errors_vs_store_writes_witness :
    placeOrder ⟨[], [], [], [], [], []⟩ none placeOk 1 "t"
      = (⟨[], [], [], [], [], []⟩, placeErr 400)
    ∧ ((createOrder ⟨[], [], [], [], [⟨5, "p"⟩], []⟩ (some "u1")
        (some [⟨some 5, none, some 0⟩]) ⟨false, false⟩ 1 "t").1.orders
          = [] ++ [⟨1, "u1", "Pending", "t"⟩]
       ∧ (createOrder ⟨[], [], [], [], [⟨5, "p"⟩], []⟩ (some "u1")
          (some [⟨some 5, none, some 0⟩]) ⟨false, false⟩ 1 "t").2
          = orderErr (itemErr [⟨5, "p"⟩] ⟨some 5, none, some 0⟩)) :=
  ⟨(validation_errors_vs_store_writes ⟨[], [], [], [], [], []⟩ none placeOk
      ⟨false, false⟩ none [] 1 "t").1 rfl,
   (validation_errors_vs_store_writes ⟨[], [], [], [], [⟨5, "p"⟩], []⟩
      (some "u1") placeOk ⟨false, false⟩ (some [⟨some 5, none, some 0⟩])
      [⟨some 5, none, some 0⟩] 1 "t").2.2 (by decide) (by decide) rfl
      ⟨some 5, none, some 0⟩ (by decide)⟩
